import Mathlib

/-!
A shallow embedding of `detect_reference` from `phenopype/core/preprocessing.py`
(lines 312-540) together with the helpers it calls.  External computer-vision
primitives (OpenCV's AKAZE detector, brute-force Hamming matcher, RANSAC
homography, `perspectiveTransform`, `minEnclosingCircle`, `resize`, and the
masking/histogram operations) are modelled as an explicit oracle record `CV`;
the control flow, data flow and arithmetic of the function itself are
translated line by line.  Machine floats are idealised as rationals.
-/

/-- A raster image: `shape0` is the number of rows (`image.shape[0]`),
`shape1` the number of columns (`image.shape[1]`); `data` abstracts the
pixel contents so that distinct images can be told apart. -/
structure Img where
  shape0 : Nat
  shape1 : Nat
  data : Nat
  deriving DecidableEq

/-- A 2D point with rational (idealised float) coordinates. -/
abbrev Pt := ℚ × ℚ

/-- A 2D point with integer coordinates (`np.int32` values). -/
abbrev IPt := ℤ × ℤ

/-- An AKAZE descriptor, abstracted. -/
abbrev Desc := Nat

/-- A 3x3 homography matrix as returned by `cv2.findHomography`, abstracted
as its rows; `detect_reference` only passes it to `perspectiveTransform`. -/
abbrev Hom := List (List ℚ)

/-- One `cv2.DMatch`: distance between the two descriptors, index of the
query (template) descriptor and of the train (target) descriptor. -/
structure DMatch where
  distance : ℚ
  queryIdx : Nat
  trainIdx : Nat
  deriving DecidableEq

/-- The `numpy.ma` masked array built in the equalization block
(lines 521-527), abstracted to identifiers of its data and mask rasters. -/
structure MaskedArr where
  dataId : Nat
  maskId : Nat
  deriving DecidableEq

/-- The external computer-vision primitives `detect_reference` calls.  Each
field stands for one library call; `equalizeHistogram` stands for
`_equalize_histogram` of `phenopype.utils_lowlevel` (that module is not part
of the sources here; only its call site is modelled, its pixel-level output
is abstract). -/
structure CV where
  resizeImg : Img → ℚ → Img
  detectAndCompute : Img → List Pt × List Desc
  knnMatch2 : List Desc → List Desc → List (DMatch × DMatch)
  findHomography : List Pt → List Pt → Hom × List Bool
  perspectiveTransform : List Pt → Hom → List Pt
  minEnclosingCircle : List IPt → Pt × ℚ
  maskedRegion : Img → List IPt → MaskedArr
  equalizeHistogram : Img → MaskedArr → Option Img → Img

/-- One row of the single-row image-metadata DataFrame `df_image_data`;
an `Option` field is `none` when the column is absent. -/
structure DfImageData where
  filename : String
  template_px_mm_ratio : Option ℚ
  current_px_mm_ratio : Option ℚ
  deriving DecidableEq

/-- One row of the mask DataFrame `df_masks`.  `inc` is the source's
`include` column (renamed: `include` is a Lean keyword); the source stores
`coords` stringified (`str([coords])`), kept structured here. -/
structure MaskRow where
  image_data : DfImageData
  mask : String
  inc : Bool
  coords : List IPt
  deriving DecidableEq

/-- The phenopype `container` object, restricted to the attributes
`detect_reference` reads or writes.  An `Option` on an attribute field is
`none` when the attribute is absent (`hasattr` is false);
`reference_detected_px_mm_ratio` can be present with the Python value
`None`, hence the nested `Option`. -/
structure Container where
  image : Img
  df_image_data : DfImageData
  reference_template_px_mm_ratio : Option ℚ
  reference_template_image : Option Img
  df_masks : Option (List MaskRow)
  reference_detected_px_mm_ratio : Option (Option ℚ)
  image_copy : Option Img
  deriving DecidableEq

/-- `obj_input`: a bare `ndarray` image or a phenopype `container`. -/
inductive ObjInput where
  | ndarray (image : Img)
  | container (c : Container)
  deriving DecidableEq

/-- A Python exception escaping `detect_reference`.  The source raises no
exception of its own except unbound-local `NameError`s; `invalidInput` is
the `InvalidInputError` the specification describes (no such class exists in
the source) and is included only so that claims about it can be stated. -/
inductive PyErr where
  | nameError (name : String)
  | invalidInput (msg : String)
  deriving DecidableEq

/-- The value of a completed call: the `(df_image_data, df_masks, image)`
triple returned for an ndarray input, or the caller's container as it stands
after the in-place assignments of lines 534-540. -/
inductive DetectOut where
  | arrayOut (df : DfImageData) (masks : List MaskRow) (image : Img)
  | containerOut (c : Container)
  deriving DecidableEq

/-- Truncation toward zero, the effect of `astype(np.int32)` on a value. -/
def truncQ (q : ℚ) : ℤ :=
  q.num.tdiv q.den

/-- Floor of a rational, used by the model of Python's `round`. -/
def ratFloor (q : ℚ) : ℤ :=
  q.num.fdiv q.den

/-- Round to the nearest integer, ties to even: Python's `round` on an
exact value. -/
def roundHalfEven (y : ℚ) : ℤ :=
  let f := ratFloor y
  let r := y - (f : ℚ)
  if r < 1 / 2 then f
  else if 1 / 2 < r then f + 1
  else if f % 2 = 0 then f else f + 1

/-- Python's `round(x, 1)` on an exact value (line 473). -/
def round1 (x : ℚ) : ℚ :=
  ((roundHalfEven (x * 10) : ℤ) : ℚ) / 10

/-- Lines 437-440: the ratio test.  From the 2-nearest-neighbour match
pairs, keep the best match `m` of a pair `(m, n)` exactly when
`m.distance < 0.7 * n.distance`. -/
def goodMatches (pairs : List (DMatch × DMatch)) : List DMatch :=
  (pairs.filter (fun p => p.1.distance < 0.7 * p.2.distance)).map Prod.fst

/-- Lines 417-426: the resize factor actually used.  `0.5` when the mean of
the target's two dimensions exceeds 5000 px and `resize` was left at its
default `1`; the caller's `resize` otherwise. -/
def resizeFactorOf (image : Img) (resize : ℚ) : ℚ :=
  if ((image.shape0 : ℚ) + (image.shape1 : ℚ)) / 2 > 5000 ∧ resize = 1 then 1 / 2
  else resize

/-- The pair of images fed to `akaze.detectAndCompute` (lines 427-432): the
template as supplied, and the target resized by `resizeFactorOf`.  Only the
target image is ever resized. -/
def detectionImages (cv : CV) (tmpl target : Img) (resize : ℚ) : Img × Img :=
  (tmpl, cv.resizeImg target (resizeFactorOf target resize))

/-- Lines 430-440 end-to-end: descriptors of both images, 2-NN Hamming
matching, ratio test. -/
def goodOf (cv : CV) (tmpl img : Img) : List DMatch :=
  goodMatches (cv.knnMatch2 (cv.detectAndCompute tmpl).2 (cv.detectAndCompute img).2)

/-- Line 445: template-side keypoint coordinates of the good matches. -/
def srcPtsOf (cv : CV) (tmpl img : Img) : List Pt :=
  (goodOf cv tmpl img).map (fun m => ((cv.detectAndCompute tmpl).1).getD m.queryIdx (0, 0))

/-- Line 446: target-side keypoint coordinates of the good matches. -/
def dstPtsOf (cv : CV) (tmpl img : Img) : List Pt :=
  (goodOf cv tmpl img).map (fun m => ((cv.detectAndCompute img).1).getD m.trainIdx (0, 0))

/-- Line 447: the homography (the returned inlier mask is unused). -/
def homographyOf (cv : CV) (tmpl img : Img) : Hom :=
  (cv.findHomography (srcPtsOf cv tmpl img) (dstPtsOf cv tmpl img)).1

/-- Lines 450-458: the template's own corner rectangle
`[[0,0],[0,h],[w,h],[w,0]]`. -/
def rectOldOf (tmpl : Img) : List Pt :=
  [(0, 0), (0, (tmpl.shape0 : ℚ)), ((tmpl.shape1 : ℚ), (tmpl.shape0 : ℚ)),
    ((tmpl.shape1 : ℚ), 0)]

/-- `astype(np.int32)` over a point list. -/
def intPts (pts : List Pt) : List IPt :=
  pts.map (fun p => (truncQ p.1, truncQ p.2))

/-- Lines 459-462: transform the template corners through the homography,
divide by the resize factor, truncate to `int32`. -/
def rectNewOf (cv : CV) (tmpl img : Img) (rf : ℚ) : List IPt :=
  intPts ((cv.perspectiveTransform (rectOldOf tmpl) (homographyOf cv tmpl img)).map
    (fun p => (p.1 / rf, p.2 / rf)))

/-- Lines 463-464: diameter of the minimal enclosing circle of the
transformed (truncated) quadrilateral. -/
def diameterNewOf (cv : CV) (tmpl img : Img) (rf : ℚ) : ℚ :=
  (cv.minEnclosingCircle (rectNewOf cv tmpl img rf)).2 * 2

/-- Lines 467-469: diameter of the minimal enclosing circle of the
template's own corner rectangle. -/
def diameterOldOf (cv : CV) (tmpl : Img) : ℚ :=
  (cv.minEnclosingCircle (intPts (rectOldOf tmpl))).2 * 2

/-- Line 472: `diameter_ratio = diameter_new / diameter_old`. -/
def diameterRatioOf (cv : CV) (tmpl img : Img) (rf : ℚ) : ℚ :=
  diameterNewOf cv tmpl img rf / diameterOldOf cv tmpl

/-- Line 473: `px_mm_ratio_new = round(diameter_ratio * template_px_mm_ratio, 1)`. -/
def pxMmRatioNewOf (cv : CV) (tmpl img : Img) (rf tr : ℚ) : ℚ :=
  round1 (diameterRatioOf cv tmpl img rf * tr)

/-- Modelled from the spec: `_convert_arr_tup_list` of
`phenopype.utils_lowlevel` (not among the sources here) turns the N x 1 x 2
point array `rect_new` into the list of its `(x, y)` tuples in order, which
step 10 of the specification then closes by repeating the first vertex. -/
def convert_arr_tup_list (pts : List IPt) : List IPt :=
  pts

/-- The state of the local variables when the `while True` block of
lines 400-514 is left.  `detected = none` / `rect_new = none` mean the
Python locals `detected_px_mm_ratio` / `rect_new` were never bound, so
reading them afterwards raises a `NameError`. -/
structure LoopState where
  image : Img
  df : DfImageData
  masks : List MaskRow
  detected : Option (Option ℚ)
  rect_new : Option (List IPt)
  deriving DecidableEq

/-- Lines 443-503, successful branch: the loop state after a detection with
at least `min_matches` good matches.  `df` gains the `current_px_mm_ratio`
column (line 476, an in-place write into the caller's DataFrame), the mask
table loses any previous "reference" rows and gains the new closed polygon
row (lines 487-501). -/
def successState (cv : CV) (ti : Img) (tr : ℚ) (image : Img) (df : DfImageData)
    (masks : List MaskRow) (resize : ℚ) : LoopState :=
  let rf := resizeFactorOf image resize
  let img2 := (detectionImages cv ti image resize).2
  let px := pxMmRatioNewOf cv ti img2 rf tr
  let rect := rectNewOf cv ti img2 rf
  let df2 := { df with current_px_mm_ratio := some px }
  let tup := convert_arr_tup_list rect
  let coords := tup ++ [tup.headD ((0 : ℤ), (0 : ℤ))]
  let masksF := if masks.any (fun r => r.mask == "reference")
    then masks.filter (fun r => r.mask != "reference") else masks
  let row : MaskRow := { image_data := df2, mask := "reference", inc := false, coords := coords }
  { image := img2, df := df2, masks := masksF ++ [row],
    detected := some (some px), rect_new := some rect }

/-- The `while True` block (lines 400-514).  Breaks: missing reference
information (lines 401-408), previously detected ratio without overwrite
(lines 409-412), detection success (lines 443-503) or failure
(lines 504-511).  The trailing `df_image_data` update of line 514 is dead
code (both branches break first) and the target image is resized in place
at line 427 before detection. -/
def detectLoop (cv : CV) (tplRatio : Option ℚ) (tplImg : Option Img)
    (prior : Option (Option ℚ)) (image : Img) (df : DfImageData)
    (masks : List MaskRow) (overwrite : Bool) (min_matches : Nat)
    (resize : ℚ) : LoopState :=
  match tplRatio, tplImg with
  | some tr, some ti =>
    match prior, overwrite with
    | some v, false =>
      { image := image, df := df, masks := masks, detected := some v, rect_new := none }
    | _, _ =>
      if min_matches ≤ (goodOf cv (detectionImages cv ti image resize).1
          (detectionImages cv ti image resize).2).length then
        successState cv ti tr image df masks resize
      else
        { image := (detectionImages cv ti image resize).2, df := df, masks := masks,
          detected := some none, rect_new := none }
  | _, _ =>
    { image := image, df := df, masks := masks, detected := none, rect_new := none }

/-- The local variables set up from `obj_input` in lines 374-397. -/
structure Loaded where
  image : Img
  df : DfImageData
  tplRatio : Option ℚ
  tplImg : Option Img
  masks : List MaskRow
  prior : Option (Option ℚ)

/-- Lines 374-397.  For an ndarray input the template ratio can only come
from a `template_px_mm_ratio` column of a supplied `df_image_data`, and the
template image is never loaded: the `template` parameter of the function is
not read anywhere.  For a container, the supplied `df_image_data` and
`df_masks` parameters are ignored in favour of the container's own. -/
def loadInputs (objInput : ObjInput) (df_image_data : Option DfImageData)
    (df_masks : Option (List MaskRow)) : Loaded :=
  match objInput with
  | .ndarray i =>
    { image := i
      df := df_image_data.getD
        { filename := "unknown", template_px_mm_ratio := none, current_px_mm_ratio := none }
      tplRatio := match df_image_data with
        | none => none
        | some d => d.template_px_mm_ratio
      tplImg := none
      masks := df_masks.getD []
      prior := none }
  | .container c =>
    { image := c.image
      df := c.df_image_data
      tplRatio := c.reference_template_px_mm_ratio
      tplImg := c.reference_template_image
      masks := c.df_masks.getD []
      prior := c.reference_detected_px_mm_ratio }

/-- Lines 531-540: the return block.  For a container the results are
assigned onto the caller's object in place; reading the never-bound local
`detected_px_mm_ratio` at line 537 raises a `NameError`.  (In Python the
`df_image_data`/`df_masks` assignments of lines 535-536 land before that
exception; the model reports the exception alone.)  When equalization ran,
`image` and `image_copy` receive the equalized (resized) image. -/
def finishUp (objInput : ObjInput) (st : LoopState) (finalImage : Img)
    (equalized : Bool) : Except PyErr DetectOut :=
  match objInput with
  | .ndarray _ => .ok (.arrayOut st.df st.masks finalImage)
  | .container c =>
    match st.detected with
    | none => .error (.nameError "detected_px_mm_ratio")
    | some v =>
      .ok (.containerOut { c with
        df_image_data := st.df
        df_masks := some st.masks
        reference_detected_px_mm_ratio := some v
        image := if equalized then finalImage else c.image
        image_copy := if equalized then some finalImage else c.image_copy })

/-- Lines 519-540: the equalization block and the return block.  With
`equalize` requested the block reads `rect_new` unconditionally (line 522);
when the loop never bound it — failed detection, missing information, or the
no-overwrite early break — this raises `NameError`. -/
def afterLoop (cv : CV) (objInput : ObjInput) (tplImg : Option Img)
    (st : LoopState) (equalize : Bool) : Except PyErr DetectOut :=
  if equalize then
    match st.rect_new with
    | none => .error (.nameError "rect_new")
    | some rect =>
      let region := cv.maskedRegion st.image rect
      let image2 := cv.equalizeHistogram st.image region tplImg
      finishUp objInput st image2 true
  else
    finishUp objInput st st.image false

/-- `detect_reference` (lines 312-540): load the inputs, run the detection
loop, equalize if requested, return.  The `template` and `px_mm_ratio_ref`
parameters are accepted and never read, as in the source. -/
def detect_reference (cv : CV) (objInput : ObjInput)
    (df_image_data : Option DfImageData) (template : Option Img)
    (overwrite equalize : Bool) (min_matches : Nat) (resize : ℚ)
    (px_mm_ratio_ref : Option ℚ) (df_masks : Option (List MaskRow)) :
    Except PyErr DetectOut :=
  let L := loadInputs objInput df_image_data df_masks
  afterLoop cv objInput L.tplImg
    (detectLoop cv L.tplRatio L.tplImg L.prior L.image L.df L.masks
      overwrite min_matches resize)
    equalize

/-- The container a call left behind, when it completed on a container. -/
def containerOfResult : Except PyErr DetectOut → Option Container
  | .ok (.containerOut c) => some c
  | _ => none

/-- Dimension scaling of `cv2.resize` with a uniform factor, for the
concrete test oracle. -/
def scaleNat (n : Nat) (f : ℚ) : Nat :=
  (truncQ ((n : ℚ) * f)).toNat

/-- A concrete instantiation of the vision primitives used to evaluate the
model at specific inputs: resizing scales the dimensions, feature
detection finds no keypoints (so the 2-NN matcher returns no pairs),
geometry is the identity, every minimal enclosing circle has radius 5, and
equalization visibly changes the pixel data. -/
def cvT : CV where
  resizeImg := fun i f => { shape0 := scaleNat i.shape0 f, shape1 := scaleNat i.shape1 f, data := i.data }
  detectAndCompute := fun _ => ([], [])
  knnMatch2 := fun _ _ => []
  findHomography := fun _ _ => ([], [])
  perspectiveTransform := fun pts _ => pts
  minEnclosingCircle := fun _ => ((0, 0), 5)
  maskedRegion := fun i _ => { dataId := i.data, maskId := 0 }
  equalizeHistogram := fun i _ _ => { i with data := i.data + 1 }

/-- The fresh single-row metadata frame of line 380. -/
def dfU : DfImageData :=
  { filename := "unknown", template_px_mm_ratio := none, current_px_mm_ratio := none }

/-- A 200 x 200 template image. -/
def imgTpl : Img := { shape0 := 200, shape1 := 200, data := 0 }

/-- A target image whose mean dimension exceeds 5000 px. -/
def imgBig : Img := { shape0 := 6000, shape1 := 6000, data := 1 }

/-- A small target image. -/
def imgTgt : Img := { shape0 := 400, shape1 := 300, data := 2 }

/-- A container with no reference-template information at all. -/
def cMissing : Container :=
  { image := imgTgt, df_image_data := dfU, reference_template_px_mm_ratio := none,
    reference_template_image := none, df_masks := none,
    reference_detected_px_mm_ratio := none, image_copy := none }

/-- A container with full template information (ratio 2). -/
def cReady : Container :=
  { image := imgTgt, df_image_data := dfU, reference_template_px_mm_ratio := some 2,
    reference_template_image := some imgTpl, df_masks := none,
    reference_detected_px_mm_ratio := none, image_copy := none }

/-- A container with template information (ratio 3) and a different target. -/
def cReady3 : Container :=
  { image := { shape0 := 600, shape1 := 400, data := 3 }, df_image_data := dfU,
    reference_template_px_mm_ratio := some 3, reference_template_image := some imgTpl,
    df_masks := none, reference_detected_px_mm_ratio := none, image_copy := none }

/-- A second concrete oracle whose detector finds four keypoints in each
image and whose 2-NN matcher returns four unambiguous pairs (distance 1
against second-best 2), so that four good matches feed the homography fit —
the geometry recovered is the identity, and both enclosing circles are
evaluated on the same point list. -/
def cvM : CV where
  resizeImg := fun i f => { shape0 := scaleNat i.shape0 f, shape1 := scaleNat i.shape1 f, data := i.data }
  detectAndCompute := fun _ => ([(0, 0), (0, 10), (10, 10), (10, 0)], [0, 1, 2, 3])
  knnMatch2 := fun _ _ =>
    [(⟨1, 0, 0⟩, ⟨2, 0, 0⟩), (⟨1, 1, 1⟩, ⟨2, 1, 1⟩),
      (⟨1, 2, 2⟩, ⟨2, 2, 2⟩), (⟨1, 3, 3⟩, ⟨2, 3, 3⟩)]
  findHomography := fun _ _ => ([[1, 0, 0], [0, 1, 0], [0, 0, 1]], [true, true, true, true])
  perspectiveTransform := fun pts _ => pts
  minEnclosingCircle := fun _ => ((100, 100), 141)
  maskedRegion := fun i _ => { dataId := i.data, maskId := 1 }
  equalizeHistogram := fun i _ _ => { i with data := i.data + 1 }

/-- A call whose only malformed input is the non-positive template ratio:
the template is a well-formed 200 x 200 raster, the target 300 x 300, and
the resize factor is left at 1. -/
def cNegRatio : Container :=
  { image := { shape0 := 300, shape1 := 300, data := 7 }, df_image_data := dfU,
    reference_template_px_mm_ratio := some (-2), reference_template_image := some imgTpl,
    df_masks := none, reference_detected_px_mm_ratio := none, image_copy := none }

/-- An existing mask row named "reference" (a stale detection). -/
def rowStale : MaskRow :=
  { image_data := dfU, mask := "reference", inc := false, coords := [(1, 1)] }

/-- An existing mask row with another name. -/
def rowOther : MaskRow :=
  { image_data := dfU, mask := "mask1", inc := true, coords := [(2, 2)] }

/-- A container whose mask table already holds a "reference" row. -/
def cWithMasks : Container :=
  { cReady with df_masks := some [rowStale, rowOther] }

/-! ## Helper lemmas about the embedded function -/

theorem container_run_eq (cv : CV) (c : Container) (dfi : Option DfImageData)
    (tm : Option Img) (ow eq : Bool) (mm : Nat) (rs : ℚ) (pr : Option ℚ)
    (ms : Option (List MaskRow)) :
    detect_reference cv (ObjInput.container c) dfi tm ow eq mm rs pr ms
      = afterLoop cv (ObjInput.container c) c.reference_template_image
          (detectLoop cv c.reference_template_px_mm_ratio c.reference_template_image
            c.reference_detected_px_mm_ratio c.image c.df_image_data (c.df_masks.getD [])
            ow mm rs) eq :=
  rfl

theorem detectLoop_missing (cv : CV) (tplRatio : Option ℚ) (tplImg : Option Img)
    (prior : Option (Option ℚ)) (image : Img) (df : DfImageData) (masks : List MaskRow)
    (ow : Bool) (mm : Nat) (rs : ℚ) (h : tplRatio = none ∨ tplImg = none) :
    detectLoop cv tplRatio tplImg prior image df masks ow mm rs
      = { image := image, df := df, masks := masks, detected := none, rect_new := none } := by
  rcases h with rfl | rfl
  · rfl
  · cases tplRatio <;> rfl

theorem detectLoop_success (cv : CV) (tr : ℚ) (ti : Img) (prior : Option (Option ℚ))
    (image : Img) (df : DfImageData) (masks : List MaskRow) (ow : Bool) (mm : Nat) (rs : ℚ)
    (hprior : prior = none ∨ ow = true)
    (hsucc : mm ≤ (goodOf cv ti (cv.resizeImg image (resizeFactorOf image rs))).length) :
    detectLoop cv (some tr) (some ti) prior image df masks ow mm rs
      = successState cv ti tr image df masks rs := by
  have h2 : mm ≤ (goodOf cv (detectionImages cv ti image rs).1
      (detectionImages cv ti image rs).2).length := hsucc
  rcases hprior with rfl | rfl
  · cases ow <;> simp only [detectLoop] <;> rw [if_pos h2]
  · cases prior <;> simp only [detectLoop] <;> rw [if_pos h2]

theorem detectLoop_notfound (cv : CV) (tr : ℚ) (ti : Img) (prior : Option (Option ℚ))
    (image : Img) (df : DfImageData) (masks : List MaskRow) (ow : Bool) (mm : Nat) (rs : ℚ)
    (hprior : prior = none ∨ ow = true)
    (hfail : (goodOf cv ti (cv.resizeImg image (resizeFactorOf image rs))).length < mm) :
    detectLoop cv (some tr) (some ti) prior image df masks ow mm rs
      = { image := cv.resizeImg image (resizeFactorOf image rs), df := df, masks := masks,
          detected := some none, rect_new := none } := by
  have h2 : ¬ mm ≤ (goodOf cv (detectionImages cv ti image rs).1
      (detectionImages cv ti image rs).2).length := Nat.not_le.mpr hfail
  rcases hprior with rfl | rfl
  · cases ow <;> (simp only [detectLoop]; rw [if_neg h2]; rfl)
  · cases prior <;> (simp only [detectLoop]; rw [if_neg h2]; rfl)

theorem afterLoop_unbound (cv : CV) (c : Container) (tplI : Option Img)
    (st : LoopState) (eq : Bool) (hdet : st.detected = none) (hrect : st.rect_new = none) :
    afterLoop cv (ObjInput.container c) tplI st eq
      = .error (.nameError (if eq then "rect_new" else "detected_px_mm_ratio")) := by
  cases eq <;> simp [afterLoop, finishUp, hdet, hrect]

theorem afterLoop_rect_unbound (cv : CV) (objInput : ObjInput) (tplI : Option Img)
    (st : LoopState) (hrect : st.rect_new = none) :
    afterLoop cv objInput tplI st true = .error (.nameError "rect_new") := by
  simp [afterLoop, hrect]

theorem afterLoop_container_noeq (cv : CV) (c : Container) (tplI : Option Img)
    (st : LoopState) (v : Option ℚ) (hdet : st.detected = some v) :
    afterLoop cv (ObjInput.container c) tplI st false
      = .ok (.containerOut { c with
          df_image_data := st.df
          df_masks := some st.masks
          reference_detected_px_mm_ratio := some v }) := by
  simp [afterLoop, finishUp, hdet]

theorem afterLoop_container_eq (cv : CV) (c : Container) (tplI : Option Img)
    (st : LoopState) (v : Option ℚ) (rect : List IPt)
    (hdet : st.detected = some v) (hrect : st.rect_new = some rect) :
    afterLoop cv (ObjInput.container c) tplI st true
      = .ok (.containerOut { c with
          df_image_data := st.df
          df_masks := some st.masks
          reference_detected_px_mm_ratio := some v
          image := cv.equalizeHistogram st.image (cv.maskedRegion st.image rect) tplI
          image_copy := some (cv.equalizeHistogram st.image (cv.maskedRegion st.image rect) tplI) }) := by
  simp [afterLoop, finishUp, hdet, hrect]

theorem successState_detected (cv : CV) (ti : Img) (tr : ℚ) (image : Img)
    (df : DfImageData) (masks : List MaskRow) (rs : ℚ) :
    (successState cv ti tr image df masks rs).detected
      = some (some (pxMmRatioNewOf cv ti (cv.resizeImg image (resizeFactorOf image rs))
          (resizeFactorOf image rs) tr)) :=
  rfl

theorem successState_rect (cv : CV) (ti : Img) (tr : ℚ) (image : Img)
    (df : DfImageData) (masks : List MaskRow) (rs : ℚ) :
    (successState cv ti tr image df masks rs).rect_new
      = some (rectNewOf cv ti (cv.resizeImg image (resizeFactorOf image rs))
          (resizeFactorOf image rs)) :=
  rfl

theorem successState_masks (cv : CV) (ti : Img) (tr : ℚ) (image : Img)
    (df : DfImageData) (masks : List MaskRow) (rs : ℚ) :
    (successState cv ti tr image df masks rs).masks
      = (if masks.any (fun r => r.mask == "reference")
          then masks.filter (fun r => r.mask != "reference") else masks)
        ++ [{ image_data := { df with current_px_mm_ratio := some (pxMmRatioNewOf cv ti (cv.resizeImg image (resizeFactorOf image rs)) (resizeFactorOf image rs) tr) }
              mask := "reference"
              inc := false
              coords := convert_arr_tup_list (rectNewOf cv ti
                  (cv.resizeImg image (resizeFactorOf image rs)) (resizeFactorOf image rs))
                ++ [(convert_arr_tup_list (rectNewOf cv ti
                  (cv.resizeImg image (resizeFactorOf image rs)) (resizeFactorOf image rs))).headD
                    ((0 : ℤ), (0 : ℤ))] }] :=
  rfl

theorem countP_ref_filter_zero (masks : List MaskRow) :
    ((if masks.any (fun r => r.mask == "reference")
        then masks.filter (fun r => r.mask != "reference") else masks).countP
      (fun r => r.mask == "reference")) = 0 := by
  by_cases h : masks.any (fun r => r.mask == "reference") = true
  · rw [if_pos h, List.countP_eq_zero]
    intro a ha
    have h2 := List.of_mem_filter ha
    simp only [bne_iff_ne, ne_eq] at h2
    simp [h2]
  · rw [if_neg h, List.countP_eq_zero]
    intro a ha hc
    rw [List.any_eq_true] at h
    exact h ⟨a, ha, hc⟩

theorem list_len4 {α : Type} (l : List α) (h : l.length = 4) :
    ∃ a b c d, l = [a, b, c, d] := by
  match l with
  | [a, b, c, d] => exact ⟨a, b, c, d, rfl⟩
  | [] | [_] | [_, _] | [_, _, _] => simp at h
  | _ :: _ :: _ :: _ :: _ :: _ => simp at h

theorem finishUp_only_name_errors (objInput : ObjInput) (st : LoopState) (img : Img)
    (b : Bool) (e : PyErr) (h : finishUp objInput st img b = .error e) :
    ∃ n, e = PyErr.nameError n := by
  cases objInput with
  | ndarray i => simp [finishUp] at h
  | container c =>
    cases hdet : st.detected with
    | none =>
      simp only [finishUp, hdet] at h
      injection h with h2
      exact ⟨"detected_px_mm_ratio", h2.symm⟩
    | some v => simp [finishUp, hdet] at h

theorem afterLoop_only_name_errors (cv : CV) (objInput : ObjInput) (tplI : Option Img)
    (st : LoopState) (eq : Bool) (e : PyErr)
    (h : afterLoop cv objInput tplI st eq = .error e) : ∃ n, e = PyErr.nameError n := by
  cases eq with
  | false =>
    exact finishUp_only_name_errors objInput st st.image false e h
  | true =>
    cases hrect : st.rect_new with
    | none =>
      rw [afterLoop_rect_unbound cv objInput tplI st hrect] at h
      injection h with h2
      exact ⟨"rect_new", h2.symm⟩
    | some rect =>
      have h3 : finishUp objInput st
          (cv.equalizeHistogram st.image (cv.maskedRegion st.image rect) tplI) true
          = .error e := by
        rw [show finishUp objInput st
            (cv.equalizeHistogram st.image (cv.maskedRegion st.image rect) tplI) true
            = afterLoop cv objInput tplI st true from by simp [afterLoop, hrect]]
        exact h
      exact finishUp_only_name_errors objInput st _ true e h3

/-! ## The claims -/

/-- C6: in the ratio-test filtering of lines 437-440, for every pair of
nearest and second-nearest matches returned by the 2-NN matcher, the best
match is kept as a good match if and only if its distance is strictly less
than 0.7 times the second-best distance.  (The pairwise-distinct hypothesis
holds for `knnMatch` output: it returns one pair per query descriptor.) -/
theorem goodMatches_keeps_iff_ratio_test (pairs : List (DMatch × DMatch))
    (p : DMatch × DMatch) (hnodup : (pairs.map Prod.fst).Nodup) (hp : p ∈ pairs) :
    p.1 ∈ goodMatches pairs ↔ p.1.distance < 0.7 * p.2.distance := by
  simp only [goodMatches]
  constructor
  · intro hmem
    obtain ⟨q, hq, hfst⟩ := List.mem_map.mp hmem
    obtain ⟨hqmem, hqc⟩ := List.mem_filter.mp hq
    have hqp : q = p := List.inj_on_of_nodup_map hnodup hqmem hp hfst
    rw [hqp] at hqc
    exact of_decide_eq_true hqc
  · intro h
    exact List.mem_map.mpr ⟨p, List.mem_filter.mpr ⟨hp, decide_eq_true h⟩, rfl⟩

/-- A concrete match pair whose best distance passes the ratio test. -/
def pairGood : DMatch × DMatch := (⟨1, 0, 0⟩, ⟨2, 0, 1⟩)

/-- Witness for C6: the ratio test evaluated on one concrete pair. -/
theorem goodMatches_ratio_test_witness :
    (([pairGood].map Prod.fst).Nodup ∧ pairGood ∈ [pairGood]) ∧
      (pairGood.1 ∈ goodMatches [pairGood] ↔
        pairGood.1.distance < 0.7 * pairGood.2.distance) :=
  ⟨⟨by decide, by decide⟩,
    goodMatches_keeps_iff_ratio_test [pairGood] pairGood (by decide) (by decide)⟩

/-- C5 (amended): the target image fed to feature extraction is resized by
0.5 when the mean of its dimensions exceeds 5000 px and `resize` was left
at 1, and by the caller's `resize` otherwise; the template image is fed
unresized in every case (lines 417-432 resize only `image`). -/
theorem detect_reference_resize_policy (cv : CV) (tmpl target : Img) (resize : ℚ) :
    detectionImages cv tmpl target resize
      = (tmpl, cv.resizeImg target
          (if ((target.shape0 : ℚ) + (target.shape1 : ℚ)) / 2 > 5000 ∧ resize = 1
            then 1 / 2 else resize)) :=
  rfl

/-- Counterexample for C5 as stated: for a 6000 x 6000 target with default
`resize`, the template handed to feature extraction is not the template
downscaled by 0.5 — the source never resizes the template. -/
theorem detect_reference_template_not_resized_cex :
    (((imgBig.shape0 : ℚ) + (imgBig.shape1 : ℚ)) / 2 > 5000 ∧ (1 : ℚ) = 1) ∧
      (detectionImages cvT imgTpl imgBig 1).1 ≠ cvT.resizeImg imgTpl (1 / 2) := by
  refine ⟨⟨by norm_num [imgBig], rfl⟩, by with_unfolding_all decide⟩

/-- C10: a container input that lacks the template image or the template
ratio is not answered with a graceful null result: the loop breaks with
`detected_px_mm_ratio` never bound, and the call raises an unhandled
`NameError` — at the container-assignment step (line 537) when equalization
is off, and already at the `rect_new` read (line 522) when it is on. -/
theorem detect_reference_missing_info_name_error (cv : CV) (c : Container)
    (dfi : Option DfImageData) (tm : Option Img) (ow eq : Bool) (mm : Nat) (rs : ℚ)
    (pr : Option ℚ) (ms : Option (List MaskRow))
    (hinfo : c.reference_template_px_mm_ratio = none ∨ c.reference_template_image = none)
    (_hprior : c.reference_detected_px_mm_ratio = none) :
    detect_reference cv (ObjInput.container c) dfi tm ow eq mm rs pr ms
      = .error (.nameError (if eq then "rect_new" else "detected_px_mm_ratio")) := by
  rw [container_run_eq, detectLoop_missing cv _ _ _ _ _ _ ow mm rs hinfo]
  exact afterLoop_unbound cv c _ _ eq rfl rfl

/-- Witness for C10 at a concrete container with no template information. -/
theorem detect_reference_missing_info_witness :
    detect_reference cvT (ObjInput.container cMissing) none none false false 10 1 none none
      = .error (.nameError (if false then "rect_new" else "detected_px_mm_ratio")) :=
  detect_reference_missing_info_name_error cvT cMissing none none false false 10 1 none none
    (Or.inl rfl) rfl

/-- C2 (the code bug, evaluated): with `equalize=True` and a detection that
finds fewer than `min_matches` good matches in the same call, the source
does not skip equalization — it enters the block and raises
`NameError` on the never-bound `rect_new` (line 522). -/
theorem detect_reference_equalize_failed_detection_crash :
    detect_reference cvT (ObjInput.container cReady) none none false true 10 1 none none
      = .error (.nameError "rect_new") :=
  rfl

/-- C1 (amended: when equalization is not requested): fewer than
`min_matches` good matches yield a normal completion with the detected
ratio set to `None` and the mask table unchanged. -/
theorem detect_reference_not_found_plain_return (cv : CV) (c : Container)
    (dfi : Option DfImageData) (tm : Option Img) (ow : Bool) (mm : Nat) (rs : ℚ)
    (pr : Option ℚ) (ms : Option (List MaskRow)) (tr : ℚ) (ti : Img)
    (htr : c.reference_template_px_mm_ratio = some tr)
    (hti : c.reference_template_image = some ti)
    (hprior : c.reference_detected_px_mm_ratio = none ∨ ow = true)
    (hfail : (goodOf cv ti (cv.resizeImg c.image (resizeFactorOf c.image rs))).length < mm) :
    detect_reference cv (ObjInput.container c) dfi tm ow false mm rs pr ms
      = .ok (.containerOut { c with
          df_masks := some (c.df_masks.getD [])
          reference_detected_px_mm_ratio := some none }) := by
  rw [container_run_eq]
  conv_lhs => rw [htr, hti, detectLoop_notfound cv tr ti _ _ _ _ ow mm rs hprior hfail]
  apply afterLoop_container_noeq
  rfl

/-- Witness for C1 at a concrete failing detection without equalization. -/
theorem detect_reference_not_found_witness :
    detect_reference cvT (ObjInput.container cReady3) none none false false 10 1 none none
      = .ok (.containerOut { cReady3 with
          df_masks := some (cReady3.df_masks.getD [])
          reference_detected_px_mm_ratio := some none }) :=
  detect_reference_not_found_plain_return cvT cReady3 none none false 10 1 none none 3 imgTpl
    rfl rfl (Or.inl rfl) (by decide)

/-- Counterexample for C1 as stated: the same failing detection with
`equalize=True` does not complete as a return value — it raises
`NameError` on `rect_new`. -/
theorem detect_reference_not_found_equalize_cex :
    detect_reference cvT (ObjInput.container cReady3) none none false true 10 1 none none
      = .error (.nameError "rect_new") :=
  rfl

/-- Counterexample for C3 as stated: a call whose template ratio is
negative — with everything else well formed: a 200 x 200 template, resize
left at 1, and four good matches feeding the homography fit, so every
library call receives arguments it accepts — raises no `InvalidInputError`.
Feature extraction runs and the call completes normally with a silently
wrong negative detected ratio. -/
theorem detect_reference_malformed_input_cex :
    Option.bind (containerOfResult (detect_reference cvM (ObjInput.container cNegRatio)
        none none false false 4 1 none none))
      (fun c => c.reference_detected_px_mm_ratio) = some (some (-2)) := by
  with_unfolding_all decide

/-- C3 (amended): `detect_reference` validates nothing: no
`InvalidInputError` exists in the source, and the only exceptions the
function raises itself are the two unbound-local `NameError`s, so malformed
inputs flow into the normal computation. -/
theorem detect_reference_only_name_errors (cv : CV) (objInput : ObjInput)
    (dfi : Option DfImageData) (tm : Option Img) (ow eq : Bool) (mm : Nat) (rs : ℚ)
    (pr : Option ℚ) (ms : Option (List MaskRow)) (e : PyErr)
    (h : detect_reference cv objInput dfi tm ow eq mm rs pr ms = .error e) :
    ∃ n, e = PyErr.nameError n := by
  have h2 : afterLoop cv objInput (loadInputs objInput dfi ms).tplImg
      (detectLoop cv (loadInputs objInput dfi ms).tplRatio (loadInputs objInput dfi ms).tplImg
        (loadInputs objInput dfi ms).prior (loadInputs objInput dfi ms).image
        (loadInputs objInput dfi ms).df (loadInputs objInput dfi ms).masks ow mm rs) eq
      = .error e := h
  exact afterLoop_only_name_errors cv objInput _ _ eq e h2

/-- Witness for C3's amended theorem at a concrete erroring call. -/
theorem detect_reference_only_name_errors_witness :
    ∃ n, PyErr.nameError "detected_px_mm_ratio" = PyErr.nameError n :=
  detect_reference_only_name_errors cvT (ObjInput.container cMissing) none none false false
    10 1 none none (PyErr.nameError "detected_px_mm_ratio") rfl

/-- A container input used to exhibit the in-place result assignments. -/
def cFrame : Container :=
  { image := { shape0 := 500, shape1 := 500, data := 6 }, df_image_data := dfU,
    reference_template_px_mm_ratio := some 4, reference_template_image := some imgTpl,
    df_masks := none, reference_detected_px_mm_ratio := none, image_copy := none }

/-- The same container as the call leaves it. -/
def cFrameOut : Container :=
  { cFrame with
    df_masks := some ([] : List MaskRow)
    reference_detected_px_mm_ratio := some none }

/-- Counterexample for C8 as stated: a container call completes and the
caller's container afterwards differs from what was supplied — results are
assigned onto the input object (lines 534-540), so the inputs are not left
unmodified. -/
theorem detect_reference_container_mutated_cex :
    containerOfResult (detect_reference cvT (ObjInput.container cFrame)
        none none false false 10 1 none none) ≠ some cFrame ∧
      (containerOfResult (detect_reference cvT (ObjInput.container cFrame)
        none none false false 10 1 none none)).isSome = true := by
  decide

/-- C8 (amended): the call writes no files and leaves the target image, the
template image and the template ratio of the container unmodified (and,
without equalization, the container's image fields); results are conveyed
by reassigning `df_image_data`, `df_masks` and
`reference_detected_px_mm_ratio` on the container. -/
theorem detect_reference_image_frame (cv : CV) (c : Container) (dfi : Option DfImageData)
    (tm : Option Img) (ow : Bool) (mm : Nat) (rs : ℚ) (pr : Option ℚ)
    (ms : Option (List MaskRow)) (c' : Container)
    (h : detect_reference cv (ObjInput.container c) dfi tm ow false mm rs pr ms
      = .ok (.containerOut c')) :
    c'.image = c.image ∧ c'.image_copy = c.image_copy ∧
      c'.reference_template_image = c.reference_template_image ∧
      c'.reference_template_px_mm_ratio = c.reference_template_px_mm_ratio ∧
      ∃ v, c'.reference_detected_px_mm_ratio = some v := by
  rw [container_run_eq] at h
  generalize hst : detectLoop cv c.reference_template_px_mm_ratio c.reference_template_image
    c.reference_detected_px_mm_ratio c.image c.df_image_data (c.df_masks.getD [])
    ow mm rs = st at h
  cases hdet : st.detected with
  | none => simp [afterLoop, finishUp, hdet] at h
  | some v =>
    rw [afterLoop_container_noeq cv c _ st v hdet] at h
    simp only [Except.ok.injEq, DetectOut.containerOut.injEq] at h
    subst h
    exact ⟨rfl, rfl, rfl, rfl, v, rfl⟩

/-- Witness for C8's amended theorem at a concrete completed call. -/
theorem detect_reference_image_frame_witness :
    cFrameOut.image = cFrame.image ∧ cFrameOut.image_copy = cFrame.image_copy ∧
      cFrameOut.reference_template_image = cFrame.reference_template_image ∧
      cFrameOut.reference_template_px_mm_ratio = cFrame.reference_template_px_mm_ratio ∧
      ∃ v, cFrameOut.reference_detected_px_mm_ratio = some v :=
  detect_reference_image_frame cvT cFrame none none false 10 1 none none cFrameOut rfl

/-- C4: for every successful detection, the returned ratio equals
`round(diameter_ratio * template_px_mm_ratio, 1)` where `diameter_ratio`
is the quotient of the diameters of the minimal enclosing circles of the
(resize-corrected, integer-truncated) transformed quadrilateral and of the
template's own corner rectangle (lines 450-473). -/
theorem detect_reference_ratio_formula (cv : CV) (c : Container) (dfi : Option DfImageData)
    (tm : Option Img) (ow eq : Bool) (mm : Nat) (rs : ℚ) (pr : Option ℚ)
    (ms : Option (List MaskRow)) (tr : ℚ) (ti : Img)
    (htr : c.reference_template_px_mm_ratio = some tr)
    (hti : c.reference_template_image = some ti)
    (hprior : c.reference_detected_px_mm_ratio = none ∨ ow = true)
    (hsucc : mm ≤ (goodOf cv ti (cv.resizeImg c.image (resizeFactorOf c.image rs))).length) :
    ∃ c', detect_reference cv (ObjInput.container c) dfi tm ow eq mm rs pr ms
        = .ok (.containerOut c') ∧
      c'.reference_detected_px_mm_ratio
        = some (some (round1 (diameterRatioOf cv ti
            (cv.resizeImg c.image (resizeFactorOf c.image rs))
            (resizeFactorOf c.image rs) * tr))) ∧
      diameterRatioOf cv ti (cv.resizeImg c.image (resizeFactorOf c.image rs))
          (resizeFactorOf c.image rs)
        = ((cv.minEnclosingCircle (rectNewOf cv ti
              (cv.resizeImg c.image (resizeFactorOf c.image rs))
              (resizeFactorOf c.image rs))).2 * 2)
          / ((cv.minEnclosingCircle (intPts (rectOldOf ti))).2 * 2) := by
  have hrun : detect_reference cv (ObjInput.container c) dfi tm ow eq mm rs pr ms
      = afterLoop cv (ObjInput.container c) (some ti)
          (successState cv ti tr c.image c.df_image_data (c.df_masks.getD []) rs) eq := by
    rw [container_run_eq, htr, hti,
      detectLoop_success cv tr ti _ _ _ _ ow mm rs hprior hsucc]
  cases eq with
  | false =>
    exact ⟨_, hrun.trans (afterLoop_container_noeq cv c _ _ _
      (successState_detected cv ti tr c.image c.df_image_data (c.df_masks.getD []) rs)),
      rfl, rfl⟩
  | true =>
    exact ⟨_, hrun.trans (afterLoop_container_eq cv c _ _ _ _
      (successState_detected cv ti tr c.image c.df_image_data (c.df_masks.getD []) rs)
      (successState_rect cv ti tr c.image c.df_image_data (c.df_masks.getD []) rs)),
      rfl, rfl⟩

/-- Witness for C4 at a concrete successful detection. -/
theorem detect_reference_ratio_formula_witness :
    ∃ c', detect_reference cvT (ObjInput.container cReady) none none false false 0 1 none none
        = .ok (.containerOut c') ∧
      c'.reference_detected_px_mm_ratio
        = some (some (round1 (diameterRatioOf cvT imgTpl
            (cvT.resizeImg cReady.image (resizeFactorOf cReady.image 1))
            (resizeFactorOf cReady.image 1) * 2))) ∧
      diameterRatioOf cvT imgTpl (cvT.resizeImg cReady.image (resizeFactorOf cReady.image 1))
          (resizeFactorOf cReady.image 1)
        = ((cvT.minEnclosingCircle (rectNewOf cvT imgTpl
              (cvT.resizeImg cReady.image (resizeFactorOf cReady.image 1))
              (resizeFactorOf cReady.image 1))).2 * 2)
          / ((cvT.minEnclosingCircle (intPts (rectOldOf imgTpl))).2 * 2) :=
  detect_reference_ratio_formula cvT cReady none none false false 0 1 none none 2 imgTpl
    rfl rfl (Or.inl rfl) (Nat.zero_le _)

theorem successState_ref_count (cv : CV) (ti : Img) (tr : ℚ) (image : Img)
    (df : DfImageData) (masks : List MaskRow) (rs : ℚ) :
    ((successState cv ti tr image df masks rs).masks).countP
      (fun r => r.mask == "reference") = 1 := by
  rw [successState_masks, List.countP_append, countP_ref_filter_zero]
  simp [List.countP_cons]

/-- C9: after every successful detection the resulting mask table holds
exactly one row named "reference": lines 489-501 first drop every existing
"reference" row and then append the one new row. -/
theorem detect_reference_reference_row_unique (cv : CV) (c : Container)
    (dfi : Option DfImageData) (tm : Option Img) (ow eq : Bool) (mm : Nat) (rs : ℚ)
    (pr : Option ℚ) (ms : Option (List MaskRow)) (tr : ℚ) (ti : Img)
    (htr : c.reference_template_px_mm_ratio = some tr)
    (hti : c.reference_template_image = some ti)
    (hprior : c.reference_detected_px_mm_ratio = none ∨ ow = true)
    (hsucc : mm ≤ (goodOf cv ti (cv.resizeImg c.image (resizeFactorOf c.image rs))).length) :
    ∃ c', detect_reference cv (ObjInput.container c) dfi tm ow eq mm rs pr ms
        = .ok (.containerOut c') ∧
      ((c'.df_masks.getD []).countP (fun r => r.mask == "reference")) = 1 := by
  have hrun : detect_reference cv (ObjInput.container c) dfi tm ow eq mm rs pr ms
      = afterLoop cv (ObjInput.container c) (some ti)
          (successState cv ti tr c.image c.df_image_data (c.df_masks.getD []) rs) eq := by
    rw [container_run_eq, htr, hti,
      detectLoop_success cv tr ti _ _ _ _ ow mm rs hprior hsucc]
  cases eq with
  | false =>
    exact ⟨_, hrun.trans (afterLoop_container_noeq cv c _ _ _
      (successState_detected cv ti tr c.image c.df_image_data (c.df_masks.getD []) rs)),
      successState_ref_count cv ti tr c.image c.df_image_data (c.df_masks.getD []) rs⟩
  | true =>
    exact ⟨_, hrun.trans (afterLoop_container_eq cv c _ _ _ _
      (successState_detected cv ti tr c.image c.df_image_data (c.df_masks.getD []) rs)
      (successState_rect cv ti tr c.image c.df_image_data (c.df_masks.getD []) rs)),
      successState_ref_count cv ti tr c.image c.df_image_data (c.df_masks.getD []) rs⟩

/-- Witness for C9 at a concrete detection whose input mask table already
holds a "reference" row. -/
theorem detect_reference_reference_row_witness :
    ∃ c', detect_reference cvT (ObjInput.container cWithMasks) none none false false 0 1 none none
        = .ok (.containerOut c') ∧
      ((c'.df_masks.getD []).countP (fun r => r.mask == "reference")) = 1 :=
  detect_reference_reference_row_unique cvT cWithMasks none none false false 0 1 none none
    2 imgTpl rfl rfl (Or.inl rfl) (Nat.zero_le _)

/-- C7: whenever a mask polygon is produced it is the four
homography-transformed (resize-corrected, truncated) template corners
followed by a repetition of the first point: five points, closed.  The
hypothesis on `perspectiveTransform` is the library contract that it maps
each input point to one output point. -/
theorem detect_reference_polygon_closed_five (cv : CV) (c : Container)
    (dfi : Option DfImageData) (tm : Option Img) (ow eq : Bool) (mm : Nat) (rs : ℚ)
    (pr : Option ℚ) (ms : Option (List MaskRow)) (tr : ℚ) (ti : Img)
    (hpt : ∀ pts H, (cv.perspectiveTransform pts H).length = pts.length)
    (htr : c.reference_template_px_mm_ratio = some tr)
    (hti : c.reference_template_image = some ti)
    (hprior : c.reference_detected_px_mm_ratio = none ∨ ow = true)
    (hsucc : mm ≤ (goodOf cv ti (cv.resizeImg c.image (resizeFactorOf c.image rs))).length) :
    ∃ c' pre row, detect_reference cv (ObjInput.container c) dfi tm ow eq mm rs pr ms
        = .ok (.containerOut c') ∧
      c'.df_masks = some (pre ++ [row]) ∧
      row.mask = "reference" ∧
      (∃ p0 p1 p2 p3,
        rectNewOf cv ti (cv.resizeImg c.image (resizeFactorOf c.image rs))
          (resizeFactorOf c.image rs) = [p0, p1, p2, p3] ∧
        row.coords = [p0, p1, p2, p3, p0]) ∧
      row.coords.length = 5 := by
  have hlen : (rectNewOf cv ti (cv.resizeImg c.image (resizeFactorOf c.image rs))
      (resizeFactorOf c.image rs)).length = 4 := by
    simp [rectNewOf, intPts, List.length_map, hpt, rectOldOf]
  obtain ⟨p0, p1, p2, p3, hr⟩ := list_len4 _ hlen
  have hrun : detect_reference cv (ObjInput.container c) dfi tm ow eq mm rs pr ms
      = afterLoop cv (ObjInput.container c) (some ti)
          (successState cv ti tr c.image c.df_image_data (c.df_masks.getD []) rs) eq := by
    rw [container_run_eq, htr, hti,
      detectLoop_success cv tr ti _ _ _ _ ow mm rs hprior hsucc]
  have hcoords : (convert_arr_tup_list (rectNewOf cv ti
        (cv.resizeImg c.image (resizeFactorOf c.image rs)) (resizeFactorOf c.image rs)))
      ++ [(convert_arr_tup_list (rectNewOf cv ti
        (cv.resizeImg c.image (resizeFactorOf c.image rs)) (resizeFactorOf c.image rs))).headD
          ((0 : ℤ), (0 : ℤ))]
      = [p0, p1, p2, p3, p0] := by
    simp only [convert_arr_tup_list]
    rw [hr]
    rfl
  cases eq with
  | false =>
    refine ⟨_, _, _, hrun.trans (afterLoop_container_noeq cv c _ _ _
      (successState_detected cv ti tr c.image c.df_image_data (c.df_masks.getD []) rs)),
      rfl, rfl, ⟨p0, p1, p2, p3, hr, hcoords⟩, (congrArg List.length hcoords).trans rfl⟩
  | true =>
    refine ⟨_, _, _, hrun.trans (afterLoop_container_eq cv c _ _ _ _
      (successState_detected cv ti tr c.image c.df_image_data (c.df_masks.getD []) rs)
      (successState_rect cv ti tr c.image c.df_image_data (c.df_masks.getD []) rs)),
      rfl, rfl, ⟨p0, p1, p2, p3, hr, hcoords⟩, (congrArg List.length hcoords).trans rfl⟩

/-- Witness for C7 at a concrete successful detection. -/
theorem detect_reference_polygon_witness :
    ∃ c' pre row, detect_reference cvT (ObjInput.container cReady3) none none true false 0 1 none none
        = .ok (.containerOut c') ∧
      c'.df_masks = some (pre ++ [row]) ∧
      row.mask = "reference" ∧
      (∃ p0 p1 p2 p3,
        rectNewOf cvT imgTpl (cvT.resizeImg cReady3.image (resizeFactorOf cReady3.image 1))
          (resizeFactorOf cReady3.image 1) = [p0, p1, p2, p3] ∧
        row.coords = [p0, p1, p2, p3, p0]) ∧
      row.coords.length = 5 :=
  detect_reference_polygon_closed_five cvT cReady3 none none true false 0 1 none none 3 imgTpl
    (fun pts H => rfl) rfl rfl (Or.inl rfl) (Nat.zero_le _)
